import Mathlib

/-!
Shallow embedding of the `AgentRuntime` class of
`src/packages/agent-auth/src/index.ts` (the `@r1x/agent-auth` package).

Modelling conventions, matching the TypeScript source line by line:

* `string | null` / possibly-`undefined` fields become `Option String`.
  JavaScript truthiness on such a value (`if (this.accessToken)`,
  `if (tokens.refreshToken)`) is `truthy`: `none` and `some ""` are falsy.
  The nullish coalescing `x ?? ''` is `Option.getD x ""`.
* The injected transport (`config.fetch ?? globalThis.fetch`) is a record of
  response functions, one per endpoint the runtime contacts.  A rejected
  promise (network error) is `FetchResult.thrown`, a resolved response is
  `FetchResult.response ok statusText body` with the body already parsed
  (`response.json()`), optional JSON fields as `Option String`.
* The `StorageAdapter` contents (a `Map` in `MemoryStorageAdapter`) are an
  association list `List (String × String)`; `storage.get/set/delete` are
  `storeGet/storeSet/storeDelete`.  `config.storage` being configured is
  `hasStorage`.
* Mutations of `this.accessToken` / `this.refreshToken` / the storage map are
  explicit state passing on `RuntimeState`; every network request and storage
  write the code performs is also appended to an observable `Effect` list, so
  that "issues zero network requests" and "exactly one request" claims are
  statable.
* A thrown `Error` is recorded as the error message string (the source has a
  single `Error` class; the spec's error-kind names label these messages).
-/

deriving instance DecidableEq for Except

namespace AgentAuth

/-- JavaScript truthiness of a `string | null | undefined` value:
`null`, `undefined` and `""` are falsy. -/
def truthy : Option String → Bool
  | none => false
  | some s => !(s == "")

/-- Parsed body of a `POST /auth/challenge` response: `{ id, payload }`. -/
structure Challenge where
  id : String
  payload : String
deriving Repr, DecidableEq

/-- Parsed body of a `POST /auth/exchange` or `POST /auth/refresh` response:
`{ accessToken, refreshToken }`, either field possibly absent. -/
structure TokenBody where
  accessToken : Option String
  refreshToken : Option String
deriving Repr, DecidableEq

/-- Outcome of one `fetchImpl(...)` call: either the promise rejected
(network error, modelled with its message) or it resolved to a response
with `ok`, `statusText` and a parsed JSON body. -/
inductive FetchResult (β : Type) where
  | thrown (msg : String)
  | response (ok : Bool) (statusText : String) (body : β)
deriving Repr, DecidableEq

/-- The injected transport: the responses the endpoints give.  Auth endpoints
see the request body the runtime sends (challenge: agentRef/credentialId;
exchange: challengeId/signature; refresh: the held refresh token); the four
domain endpoints return an opaque body string. -/
structure Transport where
  challenge : Option String → Option String → FetchResult Challenge
  exchange : String → String → FetchResult TokenBody
  refresh : String → FetchResult TokenBody
  agentsMe : FetchResult String
  agents : FetchResult String
  signTypedDataEp : FetchResult String
  signMessageEp : FetchResult String

/-- Construction-time configuration: `config.loader?.overrides?` fields,
whether `config.storage` is present, and `config.wallet.signer.signChallenge`
(`Except.error` models the signer throwing). -/
structure AgentRuntimeConfig where
  baseUrl : Option String
  agentRef : Option String
  credentialId : Option String
  hasStorage : Bool
  signer : Challenge → Except String String

/-- The mutable fields of an `AgentRuntime` instance plus the contents of its
storage adapter (meaningful only when `hasStorage`). -/
structure RuntimeState where
  accessToken : Option String
  refreshToken : Option String
  store : List (String × String)
deriving Repr, DecidableEq

/-- Observable side effects: a network request (URL and the Authorization
header it carries, if any) or a storage-adapter operation. -/
inductive Effect where
  | request (url : String) (authorization : Option String)
  | storageSet (key : String) (value : String)
  | storageDelete (key : String)
deriving Repr, DecidableEq

/-- `MemoryStorageAdapter.get`: `this.storage.get(key) ?? null`. -/
def storeGet (st : List (String × String)) (k : String) : Option String :=
  (st.find? (fun p => p.1 == k)).map (fun p => p.2)

/-- `MemoryStorageAdapter.set`: `this.storage.set(key, value)` (replace or add). -/
def storeSet (st : List (String × String)) (k v : String) : List (String × String) :=
  if (st.find? (fun p => p.1 == k)).isSome then
    st.map (fun p => if p.1 == k then (k, v) else p)
  else
    st ++ [(k, v)]

/-- `MemoryStorageAdapter.delete`: `this.storage.delete(key)`. -/
def storeDelete (st : List (String × String)) (k : String) : List (String × String) :=
  st.filter (fun p => !(p.1 == k))

/-- `AgentRuntime.refreshAccessToken` (src/packages/agent-auth/src/index.ts,
lines 204–240).  Early-returns when no refresh token is held or no base URL is
configured.  Sends `POST /auth/refresh`; inside the `try`, a `response.ok`
response replaces the access token and, when the body carries a truthy
`refreshToken`, replaces and persists it; a non-ok response does nothing.
Only the `catch` branch (the fetch throwing) clears the refresh token from
memory and deletes the `refresh_token` storage entry. -/
def refreshAccessToken (cfg : AgentRuntimeConfig) (tr : Transport)
    (s : RuntimeState) : RuntimeState × List Effect :=
  if !truthy s.refreshToken then (s, [])
  else if !truthy cfg.baseUrl then (s, [])
  else
    let baseUrl := cfg.baseUrl.getD ""
    let rt := s.refreshToken.getD ""
    let reqEff := Effect.request (baseUrl ++ "/auth/refresh") none
    match tr.refresh rt with
    | .thrown _ =>
        let s1 : RuntimeState := { s with refreshToken := none }
        if cfg.hasStorage then
          ({ s1 with store := storeDelete s1.store "refresh_token" },
            [reqEff, Effect.storageDelete "refresh_token"])
        else (s1, [reqEff])
    | .response ok _ body =>
        if ok then
          let s1 : RuntimeState := { s with accessToken := body.accessToken }
          if truthy body.refreshToken then
            let s2 : RuntimeState := { s1 with refreshToken := body.refreshToken }
            if cfg.hasStorage then
              ({ s2 with store := storeSet s2.store "refresh_token" (body.refreshToken.getD "") },
                [reqEff, Effect.storageSet "refresh_token" (body.refreshToken.getD "")])
            else (s2, [reqEff])
          else (s1, [reqEff])
        else (s, [reqEff])

/-- Result of `AgentRuntime.authenticate`: the state after the call, the
message of the thrown `Error` when it threw (`none` when it returned), and the
effects it performed. -/
structure AuthResult where
  state : RuntimeState
  error : Option String
  effects : List Effect
deriving Repr, DecidableEq

/-- `AgentRuntime.authenticate` (index.ts, lines 151–202).  Throws when the
base URL is missing; requests `POST /auth/challenge` and throws on rejection
or non-ok status; signs the challenge (signer may throw); exchanges the
challenge id and signature at `POST /auth/exchange`, throwing on rejection or
non-ok status; on an ok exchange caches both body tokens and, when the new
refresh token is truthy and a storage adapter is configured, persists it. -/
def authenticate (cfg : AgentRuntimeConfig) (tr : Transport)
    (s : RuntimeState) : AuthResult :=
  if !truthy cfg.baseUrl then
    ⟨s, some "Base URL is required for authentication", []⟩
  else
    let baseUrl := cfg.baseUrl.getD ""
    let chalEff := Effect.request (baseUrl ++ "/auth/challenge") none
    match tr.challenge cfg.agentRef cfg.credentialId with
    | .thrown msg => ⟨s, some msg, [chalEff]⟩
    | .response ok statusText chal =>
      if !ok then ⟨s, some ("Challenge request failed: " ++ statusText), [chalEff]⟩
      else
        match cfg.signer chal with
        | .error msg => ⟨s, some msg, [chalEff]⟩
        | .ok signature =>
          let exEff := Effect.request (baseUrl ++ "/auth/exchange") none
          match tr.exchange chal.id signature with
          | .thrown msg => ⟨s, some msg, [chalEff, exEff]⟩
          | .response ok2 statusText2 tokens =>
            if !ok2 then
              ⟨s, some ("Token exchange failed: " ++ statusText2), [chalEff, exEff]⟩
            else
              let s1 : RuntimeState :=
                { s with accessToken := tokens.accessToken,
                         refreshToken := tokens.refreshToken }
              if truthy s1.refreshToken && cfg.hasStorage then
                ⟨{ s1 with store := storeSet s1.store "refresh_token" (s1.refreshToken.getD "") },
                  none,
                  [chalEff, exEff, Effect.storageSet "refresh_token" (s1.refreshToken.getD "")]⟩
              else ⟨s1, none, [chalEff, exEff]⟩

/-- Result of `AgentRuntime.ensureAccessToken`: the state after the call, the
returned token string or the thrown error message, and the effects. -/
structure EnsureResult where
  state : RuntimeState
  result : Except String String
  effects : List Effect
deriving Repr, DecidableEq

/-- `AgentRuntime.ensureAccessToken` (index.ts, lines 134–149).  Returns the
cached access token when truthy; otherwise, when a refresh token is held,
attempts `refreshAccessToken` and returns the access token it cached when
truthy; otherwise runs the full `authenticate` flow and returns
`this.accessToken ?? ''`. -/
def ensureAccessToken (cfg : AgentRuntimeConfig) (tr : Transport)
    (s : RuntimeState) : EnsureResult :=
  if truthy s.accessToken then ⟨s, .ok (s.accessToken.getD ""), []⟩
  else
    let step1 := if truthy s.refreshToken then refreshAccessToken cfg tr s else (s, [])
    let s1 := step1.1
    let e1 := step1.2
    if truthy s1.accessToken then ⟨s1, .ok (s1.accessToken.getD ""), e1⟩
    else
      let a := authenticate cfg tr s1
      match a.error with
      | some msg => ⟨a.state, .error msg, e1 ++ a.effects⟩
      | none => ⟨a.state, .ok (a.state.accessToken.getD ""), e1 ++ a.effects⟩

/-- Result of one domain API operation of `createApiClient`: the state after
the call, the returned parsed body or thrown error message, and the effects. -/
structure ApiResult where
  state : RuntimeState
  result : Except String String
  effects : List Effect
deriving Repr, DecidableEq

/-- `api.getAgent` (index.ts, lines 247–258): obtain a token via
`ensureAccessToken`, `GET {baseUrl}/agents/me` with an
`Authorization: Bearer <token>` header, throw on a non-ok response. -/
def getAgent (cfg : AgentRuntimeConfig) (tr : Transport)
    (s : RuntimeState) : ApiResult :=
  let e := ensureAccessToken cfg tr s
  match e.result with
  | .error msg => ⟨e.state, .error msg, e.effects⟩
  | .ok token =>
    let baseUrl := cfg.baseUrl.getD ""
    let eff := Effect.request (baseUrl ++ "/agents/me") (some ("Bearer " ++ token))
    match tr.agentsMe with
    | .thrown msg => ⟨e.state, .error msg, e.effects ++ [eff]⟩
    | .response ok statusText body =>
      if !ok then
        ⟨e.state, .error ("Failed to get agent: " ++ statusText), e.effects ++ [eff]⟩
      else ⟨e.state, .ok body, e.effects ++ [eff]⟩

/-- `api.signTypedData` (index.ts, lines 260–275): same template against
`POST {baseUrl}/wallet/sign-typed-data`. -/
def signTypedData (cfg : AgentRuntimeConfig) (tr : Transport)
    (s : RuntimeState) : ApiResult :=
  let e := ensureAccessToken cfg tr s
  match e.result with
  | .error msg => ⟨e.state, .error msg, e.effects⟩
  | .ok token =>
    let baseUrl := cfg.baseUrl.getD ""
    let eff := Effect.request (baseUrl ++ "/wallet/sign-typed-data")
      (some ("Bearer " ++ token))
    match tr.signTypedDataEp with
    | .thrown msg => ⟨e.state, .error msg, e.effects ++ [eff]⟩
    | .response ok statusText body =>
      if !ok then
        ⟨e.state, .error ("Failed to sign typed data: " ++ statusText), e.effects ++ [eff]⟩
      else ⟨e.state, .ok body, e.effects ++ [eff]⟩

/-- `api.signMessage` (index.ts, lines 277–292): same template against
`POST {baseUrl}/wallet/sign-message`. -/
def signMessage (cfg : AgentRuntimeConfig) (tr : Transport)
    (s : RuntimeState) : ApiResult :=
  let e := ensureAccessToken cfg tr s
  match e.result with
  | .error msg => ⟨e.state, .error msg, e.effects⟩
  | .ok token =>
    let baseUrl := cfg.baseUrl.getD ""
    let eff := Effect.request (baseUrl ++ "/wallet/sign-message")
      (some ("Bearer " ++ token))
    match tr.signMessageEp with
    | .thrown msg => ⟨e.state, .error msg, e.effects ++ [eff]⟩
    | .response ok statusText body =>
      if !ok then
        ⟨e.state, .error ("Failed to sign message: " ++ statusText), e.effects ++ [eff]⟩
      else ⟨e.state, .ok body, e.effects ++ [eff]⟩

/-- `api.listAgents` (index.ts, lines 294–305): same template against
`GET {baseUrl}/agents`. -/
def listAgents (cfg : AgentRuntimeConfig) (tr : Transport)
    (s : RuntimeState) : ApiResult :=
  let e := ensureAccessToken cfg tr s
  match e.result with
  | .error msg => ⟨e.state, .error msg, e.effects⟩
  | .ok token =>
    let baseUrl := cfg.baseUrl.getD ""
    let eff := Effect.request (baseUrl ++ "/agents") (some ("Bearer " ++ token))
    match tr.agents with
    | .thrown msg => ⟨e.state, .error msg, e.effects ++ [eff]⟩
    | .response ok statusText body =>
      if !ok then
        ⟨e.state, .error ("Failed to list agents: " ++ statusText), e.effects ++ [eff]⟩
      else ⟨e.state, .ok body, e.effects ++ [eff]⟩

/-!
## Interleaving model for concurrent `ensureAccessToken` callers

`ensureAccessToken` is `async`; several callers can run it concurrently on
one `AgentRuntime` instance, interleaving at `await` points while sharing
`this.accessToken` / `this.refreshToken` / the storage adapter.  A caller is
a cooperative task whose suspension points are the source's awaited network
calls:

* `entry`    — has not run yet; its first step executes the body of
  `ensureAccessToken` up to issuing the `POST /auth/challenge` fetch
  (the cached-token check, the refresh attempt when a refresh token is held
  — run atomically here, which only removes interleavings — and the base-URL
  check of `authenticate`), then suspends on that fetch;
* `awaitChallenge` — resuming delivers the challenge response; on success the
  task proceeds to the signer and suspends on it;
* `awaitSign` — resuming delivers the signature; the task issues the
  `POST /auth/exchange` fetch and suspends on it;
* `awaitExchange` — resuming delivers the token response; on success the task
  writes both tokens to the shared state, persists a truthy refresh token,
  and returns `this.accessToken ?? ''`.

Consecutive awaits that touch no shared state (`response.json()`, the
storage write before the final read) are coalesced into one step; this
coarser atomicity only removes interleavings, so any behaviour exhibited
here is a behaviour of the source.
-/

/-- Suspension points of one concurrent `ensureAccessToken` caller. -/
inductive TaskPC where
  | entry
  | awaitChallenge
  | awaitSign (chal : Challenge)
  | awaitExchange (challengeId : String) (signature : String)
  | finished (result : Except String String)
deriving Repr, DecidableEq

/-- The state shared by all concurrent callers of one runtime instance:
its mutable fields/storage plus the log of effects performed so far. -/
structure SharedState where
  rt : RuntimeState
  log : List Effect
deriving Repr, DecidableEq

/-- Run one caller from its current suspension point to the next one. -/
def resume (cfg : AgentRuntimeConfig) (tr : Transport) (sh : SharedState) :
    TaskPC → SharedState × TaskPC
  | .entry =>
    if truthy sh.rt.accessToken then
      (sh, .finished (.ok (sh.rt.accessToken.getD "")))
    else
      let step1 :=
        if truthy sh.rt.refreshToken then refreshAccessToken cfg tr sh.rt
        else (sh.rt, [])
      let sh1 : SharedState := ⟨step1.1, sh.log ++ step1.2⟩
      if truthy sh1.rt.accessToken then
        (sh1, .finished (.ok (sh1.rt.accessToken.getD "")))
      else if !truthy cfg.baseUrl then
        (sh1, .finished (.error "Base URL is required for authentication"))
      else
        let baseUrl := cfg.baseUrl.getD ""
        (⟨sh1.rt, sh1.log ++ [Effect.request (baseUrl ++ "/auth/challenge") none]⟩,
          .awaitChallenge)
  | .awaitChallenge =>
    match tr.challenge cfg.agentRef cfg.credentialId with
    | .thrown msg => (sh, .finished (.error msg))
    | .response ok statusText chal =>
      if !ok then (sh, .finished (.error ("Challenge request failed: " ++ statusText)))
      else (sh, .awaitSign chal)
  | .awaitSign chal =>
    match cfg.signer chal with
    | .error msg => (sh, .finished (.error msg))
    | .ok signature =>
      let baseUrl := cfg.baseUrl.getD ""
      (⟨sh.rt, sh.log ++ [Effect.request (baseUrl ++ "/auth/exchange") none]⟩,
        .awaitExchange chal.id signature)
  | .awaitExchange challengeId signature =>
    match tr.exchange challengeId signature with
    | .thrown msg => (sh, .finished (.error msg))
    | .response ok statusText tokens =>
      if !ok then (sh, .finished (.error ("Token exchange failed: " ++ statusText)))
      else
        let s1 : RuntimeState :=
          { sh.rt with accessToken := tokens.accessToken,
                       refreshToken := tokens.refreshToken }
        if truthy s1.refreshToken && cfg.hasStorage then
          let s2 : RuntimeState :=
            { s1 with store := storeSet s1.store "refresh_token" (s1.refreshToken.getD "") }
          (⟨s2, sh.log ++ [Effect.storageSet "refresh_token" (s1.refreshToken.getD "")]⟩,
            .finished (.ok (s2.accessToken.getD "")))
        else (⟨s1, sh.log⟩, .finished (.ok (s1.accessToken.getD "")))
  | .finished r => (sh, .finished r)

/-- Two concurrent callers A and B of `ensureAccessToken` on one instance. -/
structure TwoTasks where
  sh : SharedState
  a : TaskPC
  b : TaskPC
deriving Repr, DecidableEq

/-- One scheduling step: resume caller A (`false`) or caller B (`true`). -/
def schedStep (cfg : AgentRuntimeConfig) (tr : Transport) (t : TwoTasks) :
    Bool → TwoTasks
  | false =>
    let r := resume cfg tr t.sh t.a
    ⟨r.1, r.2, t.b⟩
  | true =>
    let r := resume cfg tr t.sh t.b
    ⟨r.1, t.a, r.2⟩

/-- Run a schedule (a list of caller choices) from a starting configuration. -/
def runSched (cfg : AgentRuntimeConfig) (tr : Transport) :
    List Bool → TwoTasks → TwoTasks
  | [], t => t
  | c :: cs, t => runSched cfg tr cs (schedStep cfg tr t c)

/-- Number of requests to a given URL in an effect log. -/
def countRequests (log : List Effect) (url : String) : Nat :=
  (log.filter fun e =>
    match e with
    | .request u _ => u == url
    | _ => false).length

/-!
## Concrete fixtures

Instantiations of the configuration/transport used to evaluate the model at
concrete inputs (spec §8 scenario values: base URL `https://api.example.com`,
agent ref `a1`, credential `c1`, challenge `ch1`, tokens `AT1`/`RT1`).
-/

/-- Scenario configuration: full overrides, storage adapter configured, a
signer that signs any challenge. -/
def cfgEx : AgentRuntimeConfig :=
  ⟨some "https://api.example.com", some "a1", some "c1", true,
    fun c => .ok ("sig-" ++ c.id)⟩

/-- Scenario configuration without a base URL override. -/
def cfgNoUrl : AgentRuntimeConfig := { cfgEx with baseUrl := none }

/-- Scenario transport: challenge and exchange succeed with `AT1`/`RT1`,
refresh is rejected with a non-success status, `/agents/me` succeeds,
`/agents` returns a non-success status. -/
def trEx : Transport where
  challenge _ _ := .response true "OK" ⟨"ch1", "p"⟩
  exchange cid sig :=
    if cid == "ch1" && sig == "sig-ch1" then
      .response true "OK" ⟨some "AT1", some "RT1"⟩
    else .response false "Bad Request" ⟨none, none⟩
  refresh _ := .response false "Unauthorized" ⟨none, none⟩
  agentsMe := .response true "OK" "me"
  agents := .response false "Forbidden" "x"
  signTypedDataEp := .response true "OK" "std"
  signMessageEp := .response true "OK" "sm"

/-- Transport whose challenge endpoint returns a non-success status. -/
def trChalFail : Transport :=
  { trEx with challenge := fun _ _ => .response false "Bad" ⟨"x", "y"⟩ }

/-- Transport whose exchange returns ok status with a body lacking both
`accessToken` and `refreshToken` (malformed success). -/
def trNoTok : Transport :=
  { trEx with exchange := fun _ _ => .response true "OK" ⟨none, none⟩ }

/-- Transport whose refresh endpoint rejects (network error). -/
def trThrown : Transport :=
  { trEx with refresh := fun _ => .thrown "network down" }

/-- Transport whose refresh succeeds and rotates the refresh token. -/
def trRotate : Transport :=
  { trEx with refresh := fun _ => .response true "OK" ⟨some "AT2", some "RT2"⟩ }

/-- Transport whose refresh succeeds without rotating the refresh token. -/
def trNoRotate : Transport :=
  { trEx with refresh := fun _ => .response true "OK" ⟨some "AT2", none⟩ }

/-- Transport whose exchange succeeds with an access token but no refresh
token in the body. -/
def trNoRefresh : Transport :=
  { trEx with exchange := fun _ _ => .response true "OK" ⟨some "AT1", none⟩ }

/-- Scenario transport parametrised by the access token the exchange issues. -/
def trTok (atk : String) : Transport :=
  { trEx with exchange := fun cid sig =>
      if cid == "ch1" && sig == "sig-ch1" then
        .response true "OK" ⟨some atk, some "RT1"⟩
      else .response false "Bad Request" ⟨none, none⟩ }

/-- Fresh runtime state: no tokens, empty storage. -/
def s0 : RuntimeState := ⟨none, none, []⟩

/-- State holding refresh token `RT0` in memory and in storage. -/
def sRT : RuntimeState := ⟨none, some "RT0", [("refresh_token", "RT0")]⟩

/-- Schedule interleaving callers A and B: both enter before either receives
its challenge response (a slow challenge endpoint), then each runs to
completion. -/
def schedAB : List Bool := [false, true, false, false, false, true, true, true]

/-!
## Helper lemmas
-/

/-- A truthy optional string is `some` of its own default-read. -/
theorem truthy_some_getD (o : Option String) (h : truthy o = true) :
    some (o.getD "") = o := by
  cases o with
  | none => simp [truthy] at h
  | some s => rfl

/-- Reading a key just deleted from the store yields nothing. -/
theorem storeGet_storeDelete (st : List (String × String)) (k : String) :
    storeGet (storeDelete st k) k = none := by
  induction st with
  | nil => rfl
  | cons p st ih =>
    by_cases hp : p.1 == k
    · simp only [storeDelete, List.filter_cons, hp] at ih ⊢
      simp only [Bool.not_true, Bool.false_eq_true, if_false]
      exact ih
    · simp only [storeDelete, storeGet, List.filter_cons, hp] at ih ⊢
      simp only [Bool.not_false, if_true, List.find?, hp]
      exact ih

/-- Replacing a present key in the store makes it read as the new value. -/
theorem storeGet_mapReplace (st : List (String × String)) (k v : String)
    (h : (st.find? (fun p => p.1 == k)).isSome) :
    storeGet (st.map (fun p => if p.1 == k then (k, v) else p)) k = some v := by
  induction st with
  | nil => simp [List.find?] at h
  | cons p st ih =>
    by_cases hp : p.1 == k
    · simp [storeGet, List.find?, hp]
    · simp only [List.find?_cons, hp] at h
      simpa [storeGet, List.find?, hp] using ih h

/-- Reading a key just written to the store yields the written value. -/
theorem storeGet_storeSet (st : List (String × String)) (k v : String) :
    storeGet (storeSet st k v) k = some v := by
  unfold storeSet
  by_cases h : (st.find? (fun p => p.1 == k)).isSome
  · simpa [h] using storeGet_mapReplace st k v h
  · simp only [h, if_false]
    induction st with
    | nil => simp [storeGet, List.find?]
    | cons p st ih =>
      by_cases hp : p.1 == k
      · simp [List.find?_cons, hp] at h
      · simp only [List.find?_cons, hp] at h ⊢
        simpa [storeGet, List.find?, hp] using ih h

/-- A failing refresh exchange: the fetch rejected (network error) or the
response had a non-success status. -/
def RefreshFailure (tr : Transport) (rt : String) : Prop :=
  (∃ msg, tr.refresh rt = .thrown msg) ∨
  ∃ st b, tr.refresh rt = FetchResult.response false st b

/-- A fully successful challenge-response exchange caches exactly the tokens
of the exchange response body and throws nothing. -/
theorem authenticate_success (cfg : AgentRuntimeConfig) (tr : Transport)
    (s : RuntimeState) (hurl : truthy cfg.baseUrl = true)
    (stC : String) (chal : Challenge)
    (hch : tr.challenge cfg.agentRef cfg.credentialId = .response true stC chal)
    (sig : String) (hsig : cfg.signer chal = .ok sig)
    (stE : String) (tokens : TokenBody)
    (hex : tr.exchange chal.id sig = .response true stE tokens) :
    (authenticate cfg tr s).error = none ∧
    (authenticate cfg tr s).state.accessToken = tokens.accessToken ∧
    (authenticate cfg tr s).state.refreshToken = tokens.refreshToken := by
  unfold authenticate
  rw [hurl]
  simp only [hch, hsig, hex, Bool.not_true, Bool.false_eq_true, if_false]
  split <;> simp

/-- A failing refresh exchange never changes the cached access token. -/
theorem refreshAccessToken_fail_accessToken (cfg : AgentRuntimeConfig)
    (tr : Transport) (s : RuntimeState) (rt : String)
    (hrt : s.refreshToken = some rt) (hne : rt ≠ "")
    (hfail : RefreshFailure tr rt) :
    (refreshAccessToken cfg tr s).1.accessToken = s.accessToken := by
  unfold refreshAccessToken
  have htr : truthy s.refreshToken = true := by simp [truthy, hrt, hne]
  rw [htr]
  cases hb : truthy cfg.baseUrl with
  | false => simp
  | true =>
    simp only [hrt, Option.getD_some, Bool.not_true, Bool.false_eq_true, if_false]
    rcases hfail with ⟨msg, hmsg⟩ | ⟨st, b, hres⟩
    · simp only [hmsg]
      split <;> rfl
    · simp only [hres]
      simp

/-- Every run of `authenticate` either completes without throwing or leaves
the runtime state (tokens and storage) exactly as it found it. -/
theorem authenticate_error_or_unchanged (cfg : AgentRuntimeConfig)
    (tr : Transport) (s : RuntimeState) :
    (authenticate cfg tr s).error = none ∨ (authenticate cfg tr s).state = s := by
  unfold authenticate
  dsimp only
  repeat' split
  all_goals simp

/-- C3: once an access token is cached (a non-empty string — the only values
the source's truthiness test treats as a present token), every call to
`ensureAccessToken` returns exactly that token, issues zero network requests
and zero storage operations, and leaves the runtime state unchanged, so
repeated calls are idempotent. -/
theorem C3_cached_token_fast_path (cfg : AgentRuntimeConfig) (tr : Transport)
    (s : RuntimeState) (t : String) (h : s.accessToken = some t) (ht : t ≠ "") :
    ensureAccessToken cfg tr s = ⟨s, .ok t, []⟩ ∧
    ensureAccessToken cfg tr (ensureAccessToken cfg tr s).state =
      ensureAccessToken cfg tr s := by
  have htr : truthy s.accessToken = true := by simp [truthy, h, ht]
  have h1 : ensureAccessToken cfg tr s = ⟨s, .ok t, []⟩ := by
    unfold ensureAccessToken
    rw [htr]
    simp [h]
  refine ⟨h1, ?_⟩
  rw [h1]
  exact h1

/-- C3 witness: the fast path evaluated at the concrete scenario state. -/
theorem C3_cached_token_fast_path_witness :
    ensureAccessToken cfgEx trEx ⟨some "AT0", some "RT0", []⟩ =
      ⟨⟨some "AT0", some "RT0", []⟩, .ok "AT0", []⟩ ∧
    ensureAccessToken cfgEx trEx
        (ensureAccessToken cfgEx trEx ⟨some "AT0", some "RT0", []⟩).state =
      ensureAccessToken cfgEx trEx ⟨some "AT0", some "RT0", []⟩ :=
  C3_cached_token_fast_path cfgEx trEx ⟨some "AT0", some "RT0", []⟩ "AT0" rfl
    (by decide)

/-- C6: every full challenge-response authentication attempt that throws at
any step leaves the cached access token, the cached refresh token and the
storage contents all unchanged — the exchange is all-or-nothing. -/
theorem C6_authenticate_all_or_nothing (cfg : AgentRuntimeConfig)
    (tr : Transport) (s : RuntimeState)
    (h : (authenticate cfg tr s).error.isSome = true) :
    (authenticate cfg tr s).state = s := by
  rcases authenticate_error_or_unchanged cfg tr s with he | hs
  · rw [he] at h
    simp at h
  · exact hs

/-- C6 witness: a rejected challenge request leaves the fresh state intact. -/
theorem C6_authenticate_all_or_nothing_witness :
    (authenticate cfgEx trChalFail s0).state = s0 :=
  C6_authenticate_all_or_nothing cfgEx trChalFail s0 (by decide)

/-- C8: with no cached access token and no configured base URL,
`ensureAccessToken` throws the base-URL configuration error, whether or not a
refresh token is held (the refresh attempt early-returns without effect). -/
theorem C8_missing_base_url (cfg : AgentRuntimeConfig) (tr : Transport)
    (s : RuntimeState) (hA : truthy s.accessToken = false)
    (hurl : truthy cfg.baseUrl = false) :
    (ensureAccessToken cfg tr s).result =
      .error "Base URL is required for authentication" := by
  have hstep : (if truthy s.refreshToken then refreshAccessToken cfg tr s
      else (s, [])) = (s, []) := by
    cases hrt : truthy s.refreshToken with
    | false => simp
    | true =>
      unfold refreshAccessToken
      rw [hrt, hurl]
      simp
  unfold ensureAccessToken
  rw [hA]
  simp only [Bool.false_eq_true, if_false, hstep]
  unfold authenticate
  rw [hurl]
  simp [hA]

/-- C8 witness: no base URL, a held refresh token, concrete transport. -/
theorem C8_missing_base_url_witness :
    (ensureAccessToken cfgNoUrl trEx sRT).result =
      .error "Base URL is required for authentication" :=
  C8_missing_base_url cfgNoUrl trEx sRT (by decide) (by decide)

/-- C1 counterexample: a refresh exchange failing with a non-success HTTP
status (`401 Unauthorized` here) leaves the held refresh token in memory and
the storage adapter's `refresh_token` entry in place — only the transport
throwing reaches the cleanup in the `catch` block, because a resolved non-ok
response skips the `response.ok` branch and throws nothing. -/
theorem C1_counterexample :
    trEx.refresh "RT0" = .response false "Unauthorized" ⟨none, none⟩ ∧
    (refreshAccessToken cfgEx trEx sRT).1.refreshToken = some "RT0" ∧
    storeGet (refreshAccessToken cfgEx trEx sRT).1.store "refresh_token" =
      some "RT0" := by
  decide

/-- C1 (amended): only a refresh exchange that fails by a network error (the
transport throwing) clears the held refresh token from memory and deletes the
storage adapter's `refresh_token` entry; a refresh response with a
non-success status leaves the runtime state, including the held refresh token
and the storage entry, entirely unchanged. -/
theorem C1_amended_refresh_failure_cleanup (cfg : AgentRuntimeConfig)
    (tr : Transport) (s : RuntimeState) (rt : String)
    (hrt : s.refreshToken = some rt) (hne : rt ≠ "")
    (hurl : truthy cfg.baseUrl = true) (hst : cfg.hasStorage = true) :
    (∀ msg, tr.refresh rt = .thrown msg →
      (refreshAccessToken cfg tr s).1.refreshToken = none ∧
      storeGet (refreshAccessToken cfg tr s).1.store "refresh_token" = none) ∧
    (∀ st b, tr.refresh rt = FetchResult.response false st b →
      refreshAccessToken cfg tr s =
        (s, [Effect.request (cfg.baseUrl.getD "" ++ "/auth/refresh") none])) := by
  have htr : truthy s.refreshToken = true := by simp [truthy, hrt, hne]
  constructor
  · intro msg hmsg
    unfold refreshAccessToken
    rw [htr, hurl]
    simp only [hrt, Option.getD_some, Bool.not_true, Bool.false_eq_true,
      if_false, hmsg, hst]
    simp [storeGet_storeDelete]
  · intro st b hres
    unfold refreshAccessToken
    rw [htr, hurl]
    simp only [hrt, Option.getD_some, Bool.not_true, Bool.false_eq_true,
      if_false, hres]

/-- C1 witness: with the transport throwing, the token is cleared from memory
and the storage entry deleted. -/
theorem C1_amended_refresh_failure_cleanup_witness :
    (refreshAccessToken cfgEx trThrown sRT).1.refreshToken = none ∧
    storeGet (refreshAccessToken cfgEx trThrown sRT).1.store "refresh_token" =
      none :=
  (C1_amended_refresh_failure_cleanup cfgEx trThrown sRT "RT0" rfl (by decide)
    (by decide) rfl).1 "network down" rfl

/-- C7: a refresh exchange with a success status replaces the access token by
the response body's access token; the held refresh token is replaced and
persisted only when the body carries a (truthy) rotated refresh token, and
otherwise the held refresh token and the storage contents are unchanged. -/
theorem C7_refresh_success (cfg : AgentRuntimeConfig) (tr : Transport)
    (s : RuntimeState) (rt stT : String) (tokens : TokenBody)
    (hrt : s.refreshToken = some rt) (hne : rt ≠ "")
    (hurl : truthy cfg.baseUrl = true)
    (hres : tr.refresh rt = .response true stT tokens) :
    (refreshAccessToken cfg tr s).1.accessToken = tokens.accessToken ∧
    (truthy tokens.refreshToken = true →
      (refreshAccessToken cfg tr s).1.refreshToken = tokens.refreshToken ∧
      (cfg.hasStorage = true →
        storeGet (refreshAccessToken cfg tr s).1.store "refresh_token" =
          tokens.refreshToken)) ∧
    (truthy tokens.refreshToken = false →
      (refreshAccessToken cfg tr s).1.refreshToken = s.refreshToken ∧
      (refreshAccessToken cfg tr s).1.store = s.store) := by
  have htr : truthy (some rt) = true := by simp [truthy, hne]
  cases hrt2 : truthy tokens.refreshToken with
  | true =>
    cases hst : cfg.hasStorage with
    | true =>
      simp [refreshAccessToken, htr, hurl, hrt, hres, hrt2, hst,
        storeGet_storeSet, truthy_some_getD tokens.refreshToken hrt2]
    | false =>
      simp [refreshAccessToken, htr, hurl, hrt, hres, hrt2, hst]
  | false =>
    simp [refreshAccessToken, htr, hurl, hrt, hres, hrt2]

/-- C7 witness: a rotating refresh response replaces and persists the rotated
token. -/
theorem C7_refresh_success_witness :
    (refreshAccessToken cfgEx trRotate sRT).1.accessToken = some "AT2" ∧
    (refreshAccessToken cfgEx trRotate sRT).1.refreshToken = some "RT2" ∧
    storeGet (refreshAccessToken cfgEx trRotate sRT).1.store "refresh_token" =
      some "RT2" := by
  have h := C7_refresh_success cfgEx trRotate sRT "RT0" "OK"
    ⟨some "AT2", some "RT2"⟩ rfl (by decide) (by decide) rfl
  exact ⟨h.1, (h.2.1 (by decide)).1, (h.2.1 (by decide)).2 rfl⟩

/-- C10: a successful challenge-response authentication whose exchange body
carries no `refreshToken` replaces the in-memory refresh token by the absent
value while leaving the storage adapter contents untouched, so storage can
retain a stale refresh token the runtime no longer holds. -/
theorem C10_exchange_without_refresh_leaves_storage (cfg : AgentRuntimeConfig)
    (tr : Transport) (s : RuntimeState) (stC stE : String) (chal : Challenge)
    (sig : String) (atk : Option String)
    (hurl : truthy cfg.baseUrl = true)
    (hch : tr.challenge cfg.agentRef cfg.credentialId = .response true stC chal)
    (hsig : cfg.signer chal = .ok sig)
    (hex : tr.exchange chal.id sig = .response true stE ⟨atk, none⟩) :
    (authenticate cfg tr s).error = none ∧
    (authenticate cfg tr s).state.accessToken = atk ∧
    (authenticate cfg tr s).state.refreshToken = none ∧
    (authenticate cfg tr s).state.store = s.store := by
  unfold authenticate
  rw [hurl]
  simp [hch, hsig, hex, truthy]

/-- C10 witness: the pre-existing stale storage entry survives. -/
theorem C10_exchange_without_refresh_leaves_storage_witness :
    (authenticate cfgEx trNoRefresh
        ⟨none, none, [("refresh_token", "OLD")]⟩).error = none ∧
    (authenticate cfgEx trNoRefresh
        ⟨none, none, [("refresh_token", "OLD")]⟩).state.accessToken =
      some "AT1" ∧
    (authenticate cfgEx trNoRefresh
        ⟨none, none, [("refresh_token", "OLD")]⟩).state.refreshToken = none ∧
    (authenticate cfgEx trNoRefresh
        ⟨none, none, [("refresh_token", "OLD")]⟩).state.store =
      [("refresh_token", "OLD")] :=
  C10_exchange_without_refresh_leaves_storage cfgEx trNoRefresh
    ⟨none, none, [("refresh_token", "OLD")]⟩ "OK" "OK" ⟨"ch1", "p"⟩ "sig-ch1"
    (some "AT1") (by decide) rfl (by decide) rfl

/-- When the authentication flow throws, `ensureAccessToken` (entered with no
cached access token and no held refresh token) surfaces that error. -/
theorem ensure_result_of_auth_error (cfg : AgentRuntimeConfig) (tr : Transport)
    (s : RuntimeState) (msg : String)
    (hA : truthy s.accessToken = false) (hR : truthy s.refreshToken = false)
    (he : (authenticate cfg tr s).error = some msg) :
    (ensureAccessToken cfg tr s).result = .error msg := by
  unfold ensureAccessToken
  rw [hA, hR]
  simp [hA, he]

/-- When the authentication flow returns, `ensureAccessToken` (entered with no
cached access token and no held refresh token) returns the cached access
token read back with the `?? ''` default. -/
theorem ensure_result_of_auth_ok (cfg : AgentRuntimeConfig) (tr : Transport)
    (s : RuntimeState)
    (hA : truthy s.accessToken = false) (hR : truthy s.refreshToken = false)
    (he : (authenticate cfg tr s).error = none) :
    (ensureAccessToken cfg tr s).result =
      .ok ((authenticate cfg tr s).state.accessToken.getD "") := by
  unfold ensureAccessToken
  rw [hA, hR]
  simp [hA, he]

/-- C2: with no cached access token and a held refresh token, a failing
refresh exchange (the transport throwing or a non-success status) is not
surfaced: `ensureAccessToken` transparently falls through to the full
challenge-response authentication and, when that succeeds, returns the access
token of the full exchange. -/
theorem C2_refresh_failure_falls_back (cfg : AgentRuntimeConfig)
    (tr : Transport) (s : RuntimeState) (rt stC stE : String)
    (chal : Challenge) (sig t : String) (tokens : TokenBody)
    (hA : truthy s.accessToken = false)
    (hrt : s.refreshToken = some rt) (hne : rt ≠ "")
    (hfail : RefreshFailure tr rt)
    (hurl : truthy cfg.baseUrl = true)
    (hch : tr.challenge cfg.agentRef cfg.credentialId = .response true stC chal)
    (hsig : cfg.signer chal = .ok sig)
    (hex : tr.exchange chal.id sig = .response true stE tokens)
    (hat : tokens.accessToken = some t) :
    (ensureAccessToken cfg tr s).result = .ok t := by
  have htr : truthy s.refreshToken = true := by simp [truthy, hrt, hne]
  have hacc := refreshAccessToken_fail_accessToken cfg tr s rt hrt hne hfail
  have hauth := authenticate_success cfg tr (refreshAccessToken cfg tr s).1
    hurl stC chal hch sig hsig stE tokens hex
  unfold ensureAccessToken
  rw [hA, htr]
  dsimp only
  simp only [Bool.false_eq_true, if_false, if_true, hacc, hA]
  simp only [hauth.1, hauth.2.1, hat, Option.getD_some]

/-- C2 witness: stored refresh token, refresh rejected with a non-success
status, full exchange succeeding with `AT1`. -/
theorem C2_refresh_failure_falls_back_witness :
    (ensureAccessToken cfgEx trEx sRT).result = .ok "AT1" :=
  C2_refresh_failure_falls_back cfgEx trEx sRT "RT0" "OK" "OK" ⟨"ch1", "p"⟩
    "sig-ch1" "AT1" ⟨some "AT1", some "RT1"⟩ (by decide) rfl (by decide)
    (Or.inr ⟨"Unauthorized", ⟨none, none⟩, rfl⟩) (by decide) rfl (by decide)
    (by decide) rfl

/-- C4 counterexample: a token-exchange response with a success status whose
body lacks an `accessToken` does not fail `ensureAccessToken`; the call
completes and returns the empty string (`this.accessToken ?? ''`). -/
theorem C4_counterexample :
    trNoTok.exchange "ch1" "sig-ch1" = .response true "OK" ⟨none, none⟩ ∧
    (ensureAccessToken cfgEx trNoTok s0).result = .ok "" := by
  decide

/-- C4 (amended): during the full challenge-response flow entered by
`ensureAccessToken` with no cached tokens, every network failure and every
non-success status — challenge rejected, challenge non-ok, signer throwing,
exchange rejected, exchange non-ok — fails the call with the corresponding
error; but a success-status exchange response whose body lacks an
`accessToken` does not fail: the call completes and returns the empty
string. -/
theorem C4_amended_auth_failure_modes (cfg : AgentRuntimeConfig)
    (tr : Transport) (s : RuntimeState)
    (hA : truthy s.accessToken = false) (hR : truthy s.refreshToken = false)
    (hurl : truthy cfg.baseUrl = true) :
    (∀ msg, tr.challenge cfg.agentRef cfg.credentialId = .thrown msg →
      (ensureAccessToken cfg tr s).result = .error msg) ∧
    (∀ st chal,
      tr.challenge cfg.agentRef cfg.credentialId =
        FetchResult.response false st chal →
      (ensureAccessToken cfg tr s).result =
        .error ("Challenge request failed: " ++ st)) ∧
    (∀ stC chal msg,
      tr.challenge cfg.agentRef cfg.credentialId = .response true stC chal →
      cfg.signer chal = .error msg →
      (ensureAccessToken cfg tr s).result = .error msg) ∧
    (∀ stC chal sig msg,
      tr.challenge cfg.agentRef cfg.credentialId = .response true stC chal →
      cfg.signer chal = .ok sig →
      tr.exchange chal.id sig = .thrown msg →
      (ensureAccessToken cfg tr s).result = .error msg) ∧
    (∀ stC chal sig stE b,
      tr.challenge cfg.agentRef cfg.credentialId = .response true stC chal →
      cfg.signer chal = .ok sig →
      tr.exchange chal.id sig = FetchResult.response false stE b →
      (ensureAccessToken cfg tr s).result =
        .error ("Token exchange failed: " ++ stE)) ∧
    (∀ stC chal sig stE rtk,
      tr.challenge cfg.agentRef cfg.credentialId = .response true stC chal →
      cfg.signer chal = .ok sig →
      tr.exchange chal.id sig = .response true stE ⟨none, rtk⟩ →
      (ensureAccessToken cfg tr s).result = .ok "") := by
  refine ⟨?_, ?_, ?_, ?_, ?_, ?_⟩
  · intro msg hmsg
    refine ensure_result_of_auth_error cfg tr s msg hA hR ?_
    unfold authenticate
    rw [hurl]
    simp [hmsg]
  · intro st chal hch
    refine ensure_result_of_auth_error cfg tr s _ hA hR ?_
    unfold authenticate
    rw [hurl]
    simp [hch]
  · intro stC chal msg hch hsig
    refine ensure_result_of_auth_error cfg tr s msg hA hR ?_
    unfold authenticate
    rw [hurl]
    simp [hch, hsig]
  · intro stC chal sig msg hch hsig hex
    refine ensure_result_of_auth_error cfg tr s msg hA hR ?_
    unfold authenticate
    rw [hurl]
    simp [hch, hsig, hex]
  · intro stC chal sig stE b hch hsig hex
    refine ensure_result_of_auth_error cfg tr s _ hA hR ?_
    unfold authenticate
    rw [hurl]
    simp [hch, hsig, hex]
  · intro stC chal sig stE rtk hch hsig hex
    have hauth := authenticate_success cfg tr s hurl stC chal hch sig hsig stE
      ⟨none, rtk⟩ hex
    rw [ensure_result_of_auth_ok cfg tr s hA hR hauth.1, hauth.2.1]
    rfl

/-- C4 witness: a challenge request with a non-success status surfaces the
challenge error through `ensureAccessToken`. -/
theorem C4_amended_auth_failure_modes_witness :
    (ensureAccessToken cfgEx trChalFail s0).result =
      .error ("Challenge request failed: " ++ "Bad") :=
  (C4_amended_auth_failure_modes cfgEx trChalFail s0 (by decide) (by decide)
    (by decide)).2.1 "Bad" ⟨"x", "y"⟩ rfl

/-- C9: each of the four domain operations first obtains a token via
`ensureAccessToken`; when that yields a token `t`, the operation issues
exactly one request to its endpoint — carrying `Authorization: Bearer t` —
beyond the token-acquisition effects, whatever the endpoint's response is
(no retry, in particular not on a 401-style non-success status), and a
non-success response surfaces as an error carrying the HTTP status
description. -/
theorem C9_api_operations_template (cfg : AgentRuntimeConfig) (tr : Transport)
    (s : RuntimeState) (t : String)
    (h : (ensureAccessToken cfg tr s).result = .ok t) :
    ((getAgent cfg tr s).effects = (ensureAccessToken cfg tr s).effects ++
        [Effect.request (cfg.baseUrl.getD "" ++ "/agents/me")
          (some ("Bearer " ++ t))] ∧
      ∀ st b, tr.agentsMe = FetchResult.response false st b →
        (getAgent cfg tr s).result =
          .error ("Failed to get agent: " ++ st)) ∧
    ((signTypedData cfg tr s).effects = (ensureAccessToken cfg tr s).effects ++
        [Effect.request (cfg.baseUrl.getD "" ++ "/wallet/sign-typed-data")
          (some ("Bearer " ++ t))] ∧
      ∀ st b, tr.signTypedDataEp = FetchResult.response false st b →
        (signTypedData cfg tr s).result =
          .error ("Failed to sign typed data: " ++ st)) ∧
    ((signMessage cfg tr s).effects = (ensureAccessToken cfg tr s).effects ++
        [Effect.request (cfg.baseUrl.getD "" ++ "/wallet/sign-message")
          (some ("Bearer " ++ t))] ∧
      ∀ st b, tr.signMessageEp = FetchResult.response false st b →
        (signMessage cfg tr s).result =
          .error ("Failed to sign message: " ++ st)) ∧
    ((listAgents cfg tr s).effects = (ensureAccessToken cfg tr s).effects ++
        [Effect.request (cfg.baseUrl.getD "" ++ "/agents")
          (some ("Bearer " ++ t))] ∧
      ∀ st b, tr.agents = FetchResult.response false st b →
        (listAgents cfg tr s).result =
          .error ("Failed to list agents: " ++ st)) := by
  refine ⟨⟨?_, ?_⟩, ⟨?_, ?_⟩, ⟨?_, ?_⟩, ?_, ?_⟩
  · unfold getAgent
    dsimp only
    simp only [h]
    repeat' split
    all_goals simp
  · intro st b hb
    unfold getAgent
    dsimp only
    simp only [h, hb]
    simp
  · unfold signTypedData
    dsimp only
    simp only [h]
    repeat' split
    all_goals simp
  · intro st b hb
    unfold signTypedData
    dsimp only
    simp only [h, hb]
    simp
  · unfold signMessage
    dsimp only
    simp only [h]
    repeat' split
    all_goals simp
  · intro st b hb
    unfold signMessage
    dsimp only
    simp only [h, hb]
    simp
  · unfold listAgents
    dsimp only
    simp only [h]
    repeat' split
    all_goals simp
  · intro st b hb
    unfold listAgents
    dsimp only
    simp only [h, hb]
    simp

/-- C9 witness: with a cached token, `getAgent` issues its single
Bearer-authenticated request and `listAgents` surfaces its non-success
status. -/
theorem C9_api_operations_template_witness :
    (getAgent cfgEx trEx ⟨some "AT0", none, []⟩).effects =
      (ensureAccessToken cfgEx trEx ⟨some "AT0", none, []⟩).effects ++
        [Effect.request (cfgEx.baseUrl.getD "" ++ "/agents/me")
          (some ("Bearer " ++ "AT0"))] ∧
    (listAgents cfgEx trEx ⟨some "AT0", none, []⟩).result =
      .error ("Failed to list agents: " ++ "Forbidden") := by
  have h := C9_api_operations_template cfgEx trEx ⟨some "AT0", none, []⟩ "AT0"
    (by decide)
  exact ⟨h.1.1, h.2.2.2.2 "Forbidden" "x" rfl⟩

/-- C5 counterexample: two concurrent callers of `ensureAccessToken` on one
runtime instance, both observing no cached access token (a slow challenge
endpoint lets the second enter before the first's challenge response
arrives), do not coalesce: the interleaved run issues two challenge requests
and two exchange requests, refuting the single-in-flight-exchange claim even
though both callers happen to receive the same token. -/
theorem C5_counterexample :
    (runSched cfgEx trEx schedAB ⟨⟨s0, []⟩, .entry, .entry⟩).a =
      TaskPC.finished (.ok "AT1") ∧
    (runSched cfgEx trEx schedAB ⟨⟨s0, []⟩, .entry, .entry⟩).b =
      TaskPC.finished (.ok "AT1") ∧
    countRequests (runSched cfgEx trEx schedAB ⟨⟨s0, []⟩, .entry, .entry⟩).sh.log
      "https://api.example.com/auth/challenge" = 2 ∧
    countRequests (runSched cfgEx trEx schedAB ⟨⟨s0, []⟩, .entry, .entry⟩).sh.log
      "https://api.example.com/auth/exchange" = 2 := by
  decide

/-- C5 (amended): the runtime has no mutual-exclusion or single-flight
coalescing: concurrent callers that each observe no cached access token each
run their own full exchange.  Under the slow-challenge interleaving, two
concurrent callers issue two challenge requests and two exchange requests —
for every access token `atk` the identity service issues, both callers
receive `atk`, but the identity service is contacted twice per endpoint
rather than once. -/
theorem C5_amended_no_single_flight (atk : String) :
    (runSched cfgEx (trTok atk) schedAB ⟨⟨s0, []⟩, .entry, .entry⟩).a =
      TaskPC.finished (.ok atk) ∧
    (runSched cfgEx (trTok atk) schedAB ⟨⟨s0, []⟩, .entry, .entry⟩).b =
      TaskPC.finished (.ok atk) ∧
    countRequests
      (runSched cfgEx (trTok atk) schedAB ⟨⟨s0, []⟩, .entry, .entry⟩).sh.log
      "https://api.example.com/auth/challenge" = 2 ∧
    countRequests
      (runSched cfgEx (trTok atk) schedAB ⟨⟨s0, []⟩, .entry, .entry⟩).sh.log
      "https://api.example.com/auth/exchange" = 2 :=
  ⟨rfl, rfl, rfl, rfl⟩

end AgentAuth
